import Mathlib

/-!
# Verification of the PostgreSQL liveness monitor (`SDL/Practice-2/main.py`)

A shallow embedding of the monitor program: configuration is read from an
environment (a partial map from variable names to strings), the startup
credential check, logger setup, the stop flag mutated only by the signal
handler, the scoped connection context manager `connect_with_timeout`, the
diagnostic check `check_version`, the main loop with its incremental sleep
phase, and the `__main__` exit-code dispatch.

External effects (the database server's behaviour, signal arrival times,
wall-clock durations) are modelled as explicit parameters; the program's
observable actions (log lines, connection-lifecycle events, sleeps, exits)
are collected into event lists.
-/

namespace Pinger

/-! ## Environment and configuration (main.py lines 11-18) -/

/-- An environment: `os.getenv(k)` returns `none` when `k` is unset. -/
def Env : Type := String → Option String

/-- `os.getenv(k, d)`: the value of `k`, or the default `d` when unset. -/
def getenvD (env : Env) (k d : String) : String := (env k).getD d

/-- Python truthiness test `not x` for an optional string: true when the
variable is unset (`None`) or set to the empty string. -/
def pyFalsy : Option String → Bool
  | none => true
  | some s => s.isEmpty

/-- `DB_HOST = os.getenv("DB_HOST", "localhost")` (line 11). -/
def DB_HOST (env : Env) : String := getenvD env "DB_HOST" "localhost"

/-- `DB_PORT = int(os.getenv("DB_PORT", "5432"))` (line 12); the string is
kept together with its integer parse. -/
def DB_PORT (env : Env) : Option Int := (getenvD env "DB_PORT" "5432").toInt?

/-- `DB_NAME = os.getenv("DB_NAME")` (line 13): no default, may be `None`. -/
def DB_NAME (env : Env) : Option String := env "DB_NAME"

/-- `DB_USER = os.getenv("DB_USER")` (line 14). -/
def DB_USER (env : Env) : Option String := env "DB_USER"

/-- `DB_PASS = os.getenv("DB_PASS")` (line 15). -/
def DB_PASS (env : Env) : Option String := env "DB_PASS"

/-- `LOG_FILE = os.getenv("LOG_FILE", "")` (line 18). -/
def LOG_FILE (env : Env) : String := getenvD env "LOG_FILE" ""

/-- The guard of line 20: `if not DB_USER or not DB_PASS:`. -/
def credsMissing (env : Env) : Bool :=
  pyFalsy (DB_USER env) || pyFalsy (DB_PASS env)

/-- The diagnostic printed to standard error on line 21. -/
def credsDiagnostic : String :=
  "ERROR: DB_USER and DB_PASS environment variables must be set."

/-! ## Module-level startup sequence (lines 20-59)

The module body runs, in order: the credential check (lines 20-22, which
may exit the process with code 2), logger setup (lines 24-46), signal
handler installation (lines 58-59), and only under `__main__` the loop.
`startupTrace` records which of these steps run for a given environment. -/

/-- One observable step of the module-level startup sequence. -/
inductive StartupEv
  | stderrLine (msg : String)
  | exitCall (code : Nat)
  | loggerSetup
  | signalInstalled (sig : String)
  | loopEntered
deriving DecidableEq, Repr

/-- The sequence of startup steps executed by the module body (lines 20-59)
followed by entry into `main_loop` (line 143): when the credential check
fails, the process prints the diagnostic to stderr and exits with code 2
before anything else; otherwise every later step runs. -/
def startupTrace (env : Env) : List StartupEv :=
  if credsMissing env then
    [.stderrLine credsDiagnostic, .exitCall 2]
  else
    [.loggerSetup, .signalInstalled "SIGINT", .signalInstalled "SIGTERM",
     .loopEntered]

/-! ## Logging setup (lines 24-46) -/

/-- Python `logging` numeric levels. -/
def DEBUG : Nat := 10
/-- `logging.INFO`. -/
def INFO : Nat := 20
/-- `logging.WARNING`. -/
def WARNING : Nat := 30
/-- `logging.ERROR`. -/
def ERROR : Nat := 40

/-- One token of a `logging.Formatter` format string: a literal piece, or
one of the `%(asctime)s` / `%(levelname)s` / `%(message)s` substitutions. -/
inductive FmtTok
  | lit (s : String)
  | asctime
  | levelname
  | message
deriving DecidableEq, Repr

/-- Where a handler writes. -/
inductive Sink
  | stdout
  | stderr
  | file (path : String)
deriving DecidableEq, Repr

/-- A configured logging handler: its sink, its minimum severity (as set by
`setLevel`), its formatter tokens, and its open mode (`some "a"` for the
append-mode file handler, `none` for stream handlers). -/
structure Handler where
  sink : Sink
  level : Nat
  fmt : List FmtTok
  mode : Option String
deriving DecidableEq, Repr

/-- `"%(asctime)s [INFO] %(message)s"` (line 31): the severity label is the
hard-coded literal `[INFO]`, not the record's level. -/
def stdoutFmt : List FmtTok := [.asctime, .lit " [INFO] ", .message]

/-- `"%(asctime)s [ERROR] %(message)s"` (line 37): hard-coded `[ERROR]`. -/
def stderrFmt : List FmtTok := [.asctime, .lit " [ERROR] ", .message]

/-- `"%(asctime)s [%(levelname)s] %(message)s"` (line 45): the only
formatter that substitutes the record's own severity label. -/
def fileFmt : List FmtTok :=
  [.asctime, .lit " [", .levelname, .lit "] ", .message]

/-- A log record as seen by a formatter. -/
structure Record where
  asctime : String
  levelname : String
  message : String
deriving DecidableEq, Repr

/-- Substitute one format token against a record. -/
def renderTok (r : Record) : FmtTok → String
  | .lit s => s
  | .asctime => r.asctime
  | .levelname => r.levelname
  | .message => r.message

/-- Format a record with a formatter, as `logging.Formatter` does. -/
def render (fmt : List FmtTok) (r : Record) : String :=
  String.join (fmt.map (renderTok r))

/-- The handlers installed by lines 29-46: stdout at INFO, stderr at
WARNING, and an append-mode DEBUG file handler exactly when `LOG_FILE` is
non-empty (`if LOG_FILE:` on line 41). -/
def setup_logging (logFile : String) : List Handler :=
  [⟨.stdout, INFO, stdoutFmt, none⟩, ⟨.stderr, WARNING, stderrFmt, none⟩] ++
    (if logFile ≠ "" then [⟨.file logFile, DEBUG, fileFmt, some "a"⟩] else [])

/-- `os.makedirs(os.path.dirname(LOG_FILE) or ".", exist_ok=True)` on
line 42 runs exactly when the file handler is configured. -/
def makedirsOnSetup (logFile : String) : Bool := logFile ≠ ""

/-! ## Stop flag and signal handler (lines 49-59) -/

/-- A log line: its numeric severity and its message. -/
structure LogEvent where
  level : Nat
  msg : String
deriving DecidableEq, Repr

/-- `stop_requested = False` (line 49). -/
def stop_requested_init : Bool := false

/-- The program points that touch `stop_requested`: the signal handler's
write (line 54), the read at the top of each loop iteration (line 122), and
the read before each sleep increment (line 135). -/
inductive FlagEvent
  | signalReceived (signum : Int)
  | loopTopRead
  | sleepStepRead
deriving DecidableEq, Repr

/-- Effect of one program point on `stop_requested`: only the signal
handler writes (it sets the flag to `true`); the two reads leave it
unchanged. -/
def applyFlagEvent (b : Bool) : FlagEvent → Bool
  | .signalReceived _ => true
  | .loopTopRead => b
  | .sleepStepRead => b

/-- The value of `stop_requested` after a sequence of program points. -/
def runFlag (b : Bool) (es : List FlagEvent) : Bool :=
  es.foldl applyFlagEvent b

/-- `_signal_handler` (lines 52-55): sets the flag and emits one INFO line
naming the received signal. -/
def signal_handler (signum : Int) (_b : Bool) : Bool × LogEvent :=
  (true,
   ⟨INFO, "Signal " ++ toString signum ++
     " received: stopping after current iteration."⟩)

/-! ## `connect_with_timeout` (lines 62-86)

The context manager's external effects per use: whether `psycopg2.connect`
raises, whether the server rejects `SET statement_timeout`, and whether
`conn.close()` raises, are inputs; the body's outcome is passed in as an
`Except` value.  The events of one use of the scope are collected in
order. -/

/-- The exception classes distinguished by `check_version`'s handlers:
`psycopg2.OperationalError`, `psycopg2.DatabaseError` (matched after
`OperationalError`, its subclass), and any other `Exception`. -/
inductive Exc
  | operational
  | database
  | other
deriving DecidableEq, Repr

/-- One observable action inside the `connect_with_timeout` scope. -/
inductive CMEvent
  | connectAttempt
  | setStatementTimeout (ms : Int)
  | commitCall
  | rollbackCall
  | yieldConn
  | closeAttempt
  | closeRaised
deriving DecidableEq, Repr

/-- The database server's behaviour towards one use of the scope. -/
structure DbBehavior where
  connectFails : Bool
  rejectsStatementTimeout : Bool
  closeRaises : Bool
deriving DecidableEq, Repr

/-- `connect_with_timeout` (lines 62-86).  `timeout` is the module global
`CONNECT_TIMEOUT`; `body` is the outcome of the `with` body run on the
yielded connection.  When `connect` raises, `conn` is still `None`, so the
`finally` block closes nothing and the `OperationalError` propagates.
Otherwise: `SET statement_timeout = timeout * 1000` is executed and
committed, a rejection being caught and rolled back (lines 73-79); the
connection is yielded; and the `finally` block always attempts
`conn.close()`, swallowing any exception it raises (lines 81-86), so the
body's outcome is returned unchanged. -/
def connect_with_timeout {A : Type} (timeout : Int) (beh : DbBehavior)
    (body : Except Exc A) : List CMEvent × Except Exc A :=
  if beh.connectFails then
    ([.connectAttempt], .error .operational)
  else
    ([CMEvent.connectAttempt, .setStatementTimeout (timeout * 1000)] ++
       (if beh.rejectsStatementTimeout then [CMEvent.rollbackCall]
        else [CMEvent.commitCall]) ++
     [CMEvent.yieldConn, CMEvent.closeAttempt] ++
       (if beh.closeRaises then [CMEvent.closeRaised] else []),
     body)

/-! ## `check_version` (lines 89-116) -/

/-- Parameters passed to `psycopg2.connect` on lines 92-94 (besides
`connect_timeout`): the module globals, straight from the environment. -/
structure ConnParams where
  dbname : Option String
  user : Option String
  password : Option String
  host : String
  port : Option Int
deriving DecidableEq, Repr

/-- The connection parameters `check_version` supplies (lines 92-94). -/
def connParams (env : Env) : ConnParams :=
  ⟨DB_NAME env, DB_USER env, DB_PASS env, DB_HOST env, DB_PORT env⟩

/-- Outcome of executing `SELECT VERSION();` and `fetchone()` on a live
connection: an exception of one of the three classes, or a fetched row
(`none` models `fetchone()` returning no row; `some v` a row whose first
column stringifies to `v`). -/
inductive QueryOutcome
  | raisesOperational
  | raisesDatabase
  | raisesOther
  | returnsRow (row : Option String)
deriving DecidableEq, Repr

/-- Python's `str.startswith(p)`: a prefix test on the character
sequence. -/
def startsWithPy (s p : String) : Bool := p.data.isPrefixOf s.data

/-- The `with` body of `check_version` (lines 95-107): runs the probe query
and logs one line according to the fetched row, or lets the exception
propagate to the handlers. -/
def versionProbe (q : QueryOutcome) : Except Exc (List LogEvent) :=
  match q with
  | .raisesOperational => .error .operational
  | .raisesDatabase => .error .database
  | .raisesOther => .error .other
  | .returnsRow none =>
    .ok [⟨WARNING, "Connected but VERSION() returned empty result."⟩]
  | .returnsRow (some v) =>
    if startsWithPy v "PostgreSQL" then
      .ok [⟨INFO, "Successful connection. VERSION: " ++ v⟩]
    else
      .ok [⟨INFO, "Atypical VERSION response (no error): " ++ v⟩]

/-- `check_version` (lines 89-116): runs the probe inside
`connect_with_timeout` and dispatches any exception to its three handlers
(lines 108-116), each of which logs one ERROR line and returns normally.
The result is the scope's events, the log lines of this call, and the
call's outcome as seen by the caller. -/
def check_version (timeout : Int) (beh : DbBehavior) (q : QueryOutcome) :
    List CMEvent × List LogEvent × Except Exc Unit :=
  match connect_with_timeout timeout beh (versionProbe q) with
  | (cm, .ok logs) => (cm, logs, .ok ())
  | (cm, .error .operational) =>
    (cm, [⟨ERROR, "Connection failed: ..."⟩], .ok ())
  | (cm, .error .database) =>
    (cm, [⟨ERROR, "Database error: ..."⟩], .ok ())
  | (cm, .error .other) =>
    (cm, [⟨ERROR, "Unexpected error: ..."⟩], .ok ())

/-- The log lines emitted by one `check_version` call. -/
def checkLogs (timeout : Int) (beh : DbBehavior) (q : QueryOutcome) :
    List LogEvent :=
  (check_version timeout beh q).2.1

/-! ## The sleep phase (lines 129-137)

Durations are rationals (the Python values are floats).  The stop flag's
value over time is a function `flag : ℕ → Bool` giving the value observed
at the `n`-th sampling point; each sleep increment advances the sampling
point by one. -/

/-- `to_sleep = max(0, PING_INTERVAL - elapsed)` (line 130). -/
def remainingSleep (interval elapsed : ℚ) : ℚ := max 0 (interval - elapsed)

/-- The inner sleep loop (lines 134-137): while time remains and
`stop_requested` is unset, sleep `min(step, to_sleep)` with `step = 1.0`
and decrement `to_sleep` by the step.  The result is the list of durations
actually passed to `time.sleep`, in order; `n` is the sampling point of the
first flag read. -/
def sleepLoop (flag : Nat → Bool) (t : ℚ) (n : Nat) : List ℚ :=
  if h : 0 < t ∧ flag n = false then
    min 1 t :: sleepLoop flag (t - 1) (n + 1)
  else []
termination_by (⌈t⌉).toNat
decreasing_by
  have h1 : (0 : ℚ) < t := h.1
  have h2 : (0 : Int) < ⌈t⌉ := Int.ceil_pos.mpr h1
  have h3 : ⌈t - 1⌉ = ⌈t⌉ - 1 := by
    simp
  simp only [h3]
  omega

/-! ## `main_loop` (lines 119-138) -/

/-- The external circumstances of one loop iteration: the database's
behaviour for this iteration's connection, the probe-query outcome, and the
wall-clock duration the check took (`elapsed`, line 129). -/
structure IterData where
  beh : DbBehavior
  query : QueryOutcome
  elapsed : ℚ
deriving DecidableEq

/-- One observable action of the main loop. -/
inductive LoopEv
  | conn (e : CMEvent)
  | log (e : LogEvent)
  | sleepCall (d : ℚ)
deriving DecidableEq

/-- The body of one loop iteration (lines 123-137): run `check_version`
under the loop's own `except Exception` (lines 124-127), then sleep.
Returns the iteration's events and the next flag sampling point. -/
def iterationEvents (timeout : Int) (interval : ℚ) (flag : Nat → Bool)
    (it : IterData) (n : Nat) : List LoopEv × Nat :=
  let r := check_version timeout it.beh it.query
  let caught : List LogEvent :=
    match r.2.2 with
    | .ok _ => []
    | .error _ => [⟨ERROR, "Unhandled error in check_version: ..."⟩]
  let sleeps := sleepLoop flag (remainingSleep interval it.elapsed) n
  (r.1.map .conn ++ r.2.1.map .log ++ caught.map .log ++
     sleeps.map .sleepCall,
   n + sleeps.length)

/-- `main_loop`'s `while not stop_requested` loop (lines 122-138) over a
finite observation window of per-iteration circumstances.  The flag is read
at the top of each iteration and before each sleep increment; on a true
read at the top, the loop logs the final line and exits.  An exhausted
window yields `[]` (observation ends while the loop would continue). -/
def main_loop (timeout : Int) (interval : ℚ) (flag : Nat → Bool) :
    List IterData → Nat → List LoopEv
  | [], _ => []
  | it :: rest, n =>
    if flag n then [.log ⟨INFO, "pinger stopped."⟩]
    else
      let r := iterationEvents timeout interval flag it (n + 1)
      r.1 ++ main_loop timeout interval flag rest r.2

/-! ## `__main__` (lines 141-148) -/

/-- How the `main_loop()` call on line 143 can end: a normal return (the
loop exited via the stop flag), a `KeyboardInterrupt`, or some other
exception escaping the loop. -/
inductive LoopOutcome
  | normalReturn
  | keyboardInterrupt
  | fatalError (msg : String)
deriving DecidableEq, Repr

/-- The `__main__` handlers (lines 144-148): on `KeyboardInterrupt` log one
INFO line and fall through (the process then exits normally, code 0); on
any other exception log one ERROR line and `sys.exit(1)`; on a normal
return do nothing (code 0). -/
def mainEpilogue : LoopOutcome → List LogEvent × Nat
  | .normalReturn => ([], 0)
  | .keyboardInterrupt => ([⟨INFO, "Interrupted by user."⟩], 0)
  | .fatalError m => ([⟨ERROR, "Fatal error: " ++ m⟩], 1)

/-- The process exit code for a given end of `main_loop()`. -/
def exitCode (outcome : LoopOutcome) : Nat := (mainEpilogue outcome).2

/-- The process exit code of the whole program: 2 when the startup
credential check fails (line 22); otherwise determined by how `main_loop()`
ends. -/
def processExitCode (env : Env) (outcome : LoopOutcome) : Nat :=
  if credsMissing env then 2 else exitCode outcome

/-! ## Auxiliary definitions for concrete instances -/

/-- An environment with both credentials set and non-empty and everything
else unset. -/
def envEx : Env := fun k =>
  if k = "DB_USER" then some "alice"
  else if k = "DB_PASS" then some "s3cret" else none

/-- An environment agreeing with `envEx` on the credentials but differing
on every other variable. -/
def envEx2 : Env := fun k =>
  if k = "DB_USER" then some "alice"
  else if k = "DB_PASS" then some "s3cret" else some "other"

/-- The durations of the `time.sleep` calls among a list of loop events. -/
def sleepCallsOf (evs : List LoopEv) : List ℚ :=
  evs.filterMap fun ev =>
    match ev with
    | .sleepCall d => some d
    | _ => none

/-! ## Lemmas about the sleep loop -/

/-- If the stop flag reads true at the current sampling point, the sleep
loop performs no sleep at all. -/
theorem sleepLoop_nil_of_flag (flag : Nat → Bool) (t : ℚ) (n : Nat)
    (h : flag n = true) : sleepLoop flag t n = [] := by
  rw [sleepLoop]
  simp [h]

/-- If the flag reads true `j` sampling points from now, the sleep loop
performs at most `j` further sleep increments. -/
theorem sleepLoop_length_le (flag : Nat → Bool) (t : ℚ) (n j : Nat)
    (h : flag (n + j) = true) : (sleepLoop flag t n).length ≤ j := by
  induction j generalizing t n with
  | zero =>
    rw [sleepLoop_nil_of_flag flag t n (by simpa using h)]
    simp
  | succ j ih =>
    rw [sleepLoop]
    split
    · next hc =>
      have hx : flag (n + 1 + j) = true := by
        rw [show n + 1 + j = n + (j + 1) from by omega]
        exact h
      have := ih (t - 1) (n + 1) hx
      simp only [List.length_cons]
      omega
    · simp

/-- Every duration passed to `time.sleep` by the sleep loop is at most one
time unit (`min(step, to_sleep)` with `step = 1.0`). -/
theorem sleepLoop_mem_le_one (flag : Nat → Bool) (t : ℚ) (n : Nat) :
    ∀ d ∈ sleepLoop flag t n, d ≤ 1 := by
  induction t, n using sleepLoop.induct flag with
  | case1 t n hc ih =>
    rw [sleepLoop, dif_pos hc]
    intro d hd
    rcases List.mem_cons.mp hd with h | h
    · exact h ▸ min_le_left _ _
    · exact ih d h
  | case2 t n hc =>
    rw [sleepLoop, dif_neg hc]
    simp

/-- `sleepCallsOf` distributes over concatenation. -/
theorem sleepCallsOf_append (a b : List LoopEv) :
    sleepCallsOf (a ++ b) = sleepCallsOf a ++ sleepCallsOf b := by
  simp [sleepCallsOf]

/-- Connection-lifecycle events are not sleeps. -/
theorem sleepCallsOf_conn (l : List CMEvent) :
    sleepCallsOf (l.map .conn) = [] := by
  simp [sleepCallsOf]

/-- Log events are not sleeps. -/
theorem sleepCallsOf_log (l : List LogEvent) :
    sleepCallsOf (l.map .log) = [] := by
  simp [sleepCallsOf]

/-- Projecting the sleep events back out recovers the durations. -/
theorem sleepCallsOf_sleeps (l : List ℚ) :
    sleepCallsOf (l.map .sleepCall) = l := by
  induction l with
  | nil => rfl
  | cons a l ih => simpa [sleepCallsOf, List.filterMap_cons] using ih

/-! ## Claims -/

/-- C1: At startup, if `DB_USER` or `DB_PASS` is unset or empty, the
process prints a diagnostic to standard error and exits with code 2 before
any logger setup, signal installation, or loop iteration runs; if both are
non-empty, the check passes and the monitor proceeds. -/
theorem C1_startup_credential_check (env : Env) :
    (credsMissing env = true ↔
      pyFalsy (DB_USER env) = true ∨ pyFalsy (DB_PASS env) = true) ∧
    (credsMissing env = true →
      startupTrace env = [.stderrLine credsDiagnostic, .exitCall 2] ∧
      StartupEv.loggerSetup ∉ startupTrace env ∧
      (∀ s, StartupEv.signalInstalled s ∉ startupTrace env) ∧
      StartupEv.loopEntered ∉ startupTrace env) ∧
    (credsMissing env = false →
      (∀ c, StartupEv.exitCall c ∉ startupTrace env) ∧
      StartupEv.loggerSetup ∈ startupTrace env ∧
      StartupEv.loopEntered ∈ startupTrace env) := by
  refine ⟨by simp [credsMissing], ?_, ?_⟩
  · intro h
    simp [startupTrace, h]
  · intro h
    simp [startupTrace, h]

/-- C1 witness: a fully unset environment fails the check and produces only
the diagnostic and the exit; an environment with both credentials non-empty
reaches the loop. -/
theorem C1_startup_credential_check_witness :
    startupTrace (fun _ => none) =
      [.stderrLine credsDiagnostic, .exitCall 2] ∧
    StartupEv.loopEntered ∈ startupTrace envEx := by
  refine ⟨((C1_startup_credential_check (fun _ => none)).2.1 (by decide)).1,
    ((C1_startup_credential_check envEx).2.2 (by decide)).2.2⟩

/-- C2: every outcome of one connection attempt — connect failure, query
failure, or any other exception — is caught inside `check_version`, which
returns normally after logging one ERROR line, and the main loop always
proceeds to its next scheduled iteration when the stop flag is unset. -/
theorem C2_check_version_never_raises (timeout : Int) (beh : DbBehavior)
    (q : QueryOutcome) :
    (check_version timeout beh q).2.2 = .ok () ∧
    (∀ e, (connect_with_timeout timeout beh (versionProbe q)).2 = .error e →
      ∃ m, (⟨ERROR, m⟩ : LogEvent) ∈ checkLogs timeout beh q) ∧
    (∀ (interval : ℚ) (flag : Nat → Bool) (it : IterData)
        (rest : List IterData) (n : Nat), flag n = false →
      main_loop timeout interval flag (it :: rest) n =
        (iterationEvents timeout interval flag it (n + 1)).1 ++
          main_loop timeout interval flag rest
            (iterationEvents timeout interval flag it (n + 1)).2) := by
  refine ⟨?_, ?_, ?_⟩
  · unfold check_version
    cases h : connect_with_timeout timeout beh (versionProbe q) with
    | mk cm res =>
      cases res with
      | ok l => simp
      | error e => cases e <;> simp
  · intro e he
    unfold checkLogs check_version
    cases h : connect_with_timeout timeout beh (versionProbe q) with
    | mk cm res =>
      rw [h] at he
      simp only at he
      subst he
      cases e with
      | operational => exact ⟨"Connection failed: ...", by simp⟩
      | database => exact ⟨"Database error: ...", by simp⟩
      | other => exact ⟨"Unexpected error: ...", by simp⟩
  · intro interval flag it rest n h
    simp [main_loop, h]

/-- C2 witness: a failed connection attempt still ends `check_version`
normally with one ERROR line, and the loop's unfolding at an unset flag. -/
theorem C2_check_version_never_raises_witness :
    (check_version 10 ⟨true, false, false⟩ (.returnsRow none)).2.2 = .ok () ∧
    (∃ m, (⟨ERROR, m⟩ : LogEvent) ∈
      checkLogs 10 ⟨true, false, false⟩ (.returnsRow none)) ∧
    main_loop 10 0 (fun _ => false)
        [⟨⟨true, false, false⟩, .returnsRow none, 0⟩] 0 =
      (iterationEvents 10 0 (fun _ => false)
        ⟨⟨true, false, false⟩, .returnsRow none, 0⟩ 1).1 ++
        main_loop 10 0 (fun _ => false) []
          (iterationEvents 10 0 (fun _ => false)
            ⟨⟨true, false, false⟩, .returnsRow none, 0⟩ 1).2 := by
  refine ⟨(C2_check_version_never_raises 10 ⟨true, false, false⟩
      (.returnsRow none)).1,
    (C2_check_version_never_raises 10 ⟨true, false, false⟩
      (.returnsRow none)).2.1 .operational rfl,
    (C2_check_version_never_raises 10 ⟨true, false, false⟩
      (.returnsRow none)).2.2 0 (fun _ => false) _ [] 0 rfl⟩

/-- C3: when the diagnostic query executes without error, exactly one of
three mutually exclusive log lines is emitted, selected by the fetched row:
no row yields one WARNING; a row starting with "PostgreSQL" yields one INFO
success line with the full string; any other row yields one INFO "atypical"
line — and both row cases end as success, not error. -/
theorem C3_probe_logging (timeout : Int) (beh : DbBehavior)
    (r : Option String) (hc : beh.connectFails = false) :
    (r = none → checkLogs timeout beh (.returnsRow r) =
      [⟨WARNING, "Connected but VERSION() returned empty result."⟩]) ∧
    (∀ v, r = some v → startsWithPy v "PostgreSQL" = true →
      checkLogs timeout beh (.returnsRow r) =
        [⟨INFO, "Successful connection. VERSION: " ++ v⟩]) ∧
    (∀ v, r = some v → startsWithPy v "PostgreSQL" = false →
      checkLogs timeout beh (.returnsRow r) =
        [⟨INFO, "Atypical VERSION response (no error): " ++ v⟩]) ∧
    (checkLogs timeout beh (.returnsRow r)).length = 1 ∧
    (∀ e ∈ checkLogs timeout beh (.returnsRow r), e.level ≠ ERROR) ∧
    (check_version timeout beh (.returnsRow r)).2.2 = .ok () := by
  rcases beh with ⟨cf, rej, cr⟩
  simp only at hc
  subst hc
  rcases r with _ | v
  · cases rej <;> cases cr <;>
      simp [checkLogs, check_version, connect_with_timeout, versionProbe,
        ERROR, WARNING]
  · by_cases hv : startsWithPy v "PostgreSQL" = true <;>
      cases rej <;> cases cr <;>
      simp [checkLogs, check_version, connect_with_timeout, versionProbe,
        hv, ERROR, INFO]

/-- C3 witness: the three lines at concrete rows. -/
theorem C3_probe_logging_witness :
    checkLogs 10 ⟨false, false, false⟩ (.returnsRow none) =
      [⟨WARNING, "Connected but VERSION() returned empty result."⟩] ∧
    checkLogs 10 ⟨false, false, false⟩
        (.returnsRow (some "PostgreSQL 15.2")) =
      [⟨INFO, "Successful connection. VERSION: PostgreSQL 15.2"⟩] ∧
    checkLogs 10 ⟨false, false, false⟩ (.returnsRow (some "weird")) =
      [⟨INFO, "Atypical VERSION response (no error): weird"⟩] := by
  refine ⟨(C3_probe_logging 10 ⟨false, false, false⟩ none rfl).1 rfl,
    ?_, ?_⟩
  · have := (C3_probe_logging 10 ⟨false, false, false⟩
      (some "PostgreSQL 15.2") rfl).2.1 "PostgreSQL 15.2" rfl (by decide)
    simpa using this
  · have := (C3_probe_logging 10 ⟨false, false, false⟩
      (some "weird") rfl).2.2.1 "weird" rfl (by decide)
    simpa using this

/-- C5: whenever the connection is established, the scope of
`connect_with_timeout` attempts `conn.close()` on every exit path, the
close attempt is its last action, and the body's outcome — normal or
exceptional — is returned unchanged, so a failing `close` neither escalates
nor masks the original error. -/
theorem C5_connection_always_closed {A : Type} (timeout : Int)
    (beh : DbBehavior) (body : Except Exc A)
    (hc : beh.connectFails = false) :
    CMEvent.closeAttempt ∈ (connect_with_timeout timeout beh body).1 ∧
    ((connect_with_timeout timeout beh body).1.getLast? =
        some CMEvent.closeAttempt ∨
      (connect_with_timeout timeout beh body).1.getLast? =
        some CMEvent.closeRaised) ∧
    (connect_with_timeout timeout beh body).2 = body := by
  rcases beh with ⟨cf, rej, cr⟩
  simp only at hc
  subst hc
  cases rej <;> cases cr <;>
    refine ⟨by simp [connect_with_timeout], ?_,
      by simp [connect_with_timeout]⟩ <;>
    first
      | exact Or.inl rfl
      | exact Or.inr rfl

/-- C5 witness: a query-failure exit path with a failing `close` still ends
with the close attempt and still reports the query failure. -/
theorem C5_connection_always_closed_witness :
    CMEvent.closeAttempt ∈
      (connect_with_timeout 10 ⟨false, false, true⟩
        (.error .database : Except Exc Unit)).1 ∧
    (connect_with_timeout 10 ⟨false, false, true⟩
      (.error .database : Except Exc Unit)).2 = .error .database := by
  refine ⟨(C5_connection_always_closed 10 ⟨false, false, true⟩ _ rfl).1,
    (C5_connection_always_closed 10 ⟨false, false, true⟩ _ rfl).2.2⟩

/-- C7: immediately after connecting, the scope attempts to set a
server-side statement timeout of `CONNECT_TIMEOUT * 1000` milliseconds; a
rejection is rolled back (never committed), the body's outcome is returned
unchanged, and a diagnostic check on such a connection still succeeds — the
rejection is never surfaced as an error. -/
theorem C7_statement_timeout {A : Type} (timeout : Int) (beh : DbBehavior)
    (body : Except Exc A) (hc : beh.connectFails = false) :
    ((connect_with_timeout timeout beh body).1.take 2 =
      [CMEvent.connectAttempt,
       CMEvent.setStatementTimeout (timeout * 1000)]) ∧
    (beh.rejectsStatementTimeout = true →
      CMEvent.rollbackCall ∈ (connect_with_timeout timeout beh body).1 ∧
      CMEvent.commitCall ∉ (connect_with_timeout timeout beh body).1 ∧
      (connect_with_timeout timeout beh body).2 = body) ∧
    (∀ v, startsWithPy v "PostgreSQL" = true →
      checkLogs timeout { beh with rejectsStatementTimeout := true }
          (.returnsRow (some v)) =
        [⟨INFO, "Successful connection. VERSION: " ++ v⟩] ∧
      (check_version timeout { beh with rejectsStatementTimeout := true }
          (.returnsRow (some v))).2.2 = .ok ()) := by
  rcases beh with ⟨cf, rej, cr⟩
  simp only at hc
  subst hc
  refine ⟨?_, ?_, ?_⟩
  · cases rej <;> cases cr <;> simp [connect_with_timeout]
  · intro hrej
    simp only at hrej
    subst hrej
    cases cr <;>
      refine ⟨by simp [connect_with_timeout], by simp [connect_with_timeout],
        by simp [connect_with_timeout]⟩
  · intro v hv
    cases cr <;>
      simp [checkLogs, check_version, connect_with_timeout, versionProbe, hv]

/-- C7 witness: the timeout value and the degraded-but-successful check at
concrete inputs. -/
theorem C7_statement_timeout_witness :
    ((connect_with_timeout 10 ⟨false, true, false⟩
        (.ok () : Except Exc Unit)).1.take 2 =
      [CMEvent.connectAttempt, CMEvent.setStatementTimeout 10000]) ∧
    checkLogs 10 ⟨false, true, false⟩
        (.returnsRow (some "PostgreSQL 15.2")) =
      [⟨INFO, "Successful connection. VERSION: PostgreSQL 15.2"⟩] := by
  refine ⟨?_, ?_⟩
  · have := (C7_statement_timeout 10 ⟨false, true, false⟩
      (.ok () : Except Exc Unit) rfl).1
    simpa using this
  · have := ((C7_statement_timeout 10 ⟨false, true, false⟩
      (.ok () : Except Exc Unit) rfl).2.2 "PostgreSQL 15.2" (by decide)).1
    simpa using this

/-- C4 counterexample: the claim says the `KeyboardInterrupt` path exits
with code 1, but the handler on lines 144-145 only logs and falls through,
so the process exits with code 0. -/
theorem C4_exit_codes_counterexample :
    processExitCode envEx LoopOutcome.keyboardInterrupt = 0 ∧
    processExitCode envEx LoopOutcome.keyboardInterrupt ≠ 1 := by
  decide

/-- C4 (amended): the exit code is 0 for a clean shutdown via a termination
signal (a normal return of `main_loop`) and also 0 for the
interrupted-by-user (`KeyboardInterrupt`) path, which only logs
"Interrupted by user."; it is 1 only for a fatal unhandled error escaping
`main_loop`, and 2 for missing required credentials at startup. -/
theorem C4_exit_codes (env : Env) (m : String) :
    (credsMissing env = true → ∀ o, processExitCode env o = 2) ∧
    (credsMissing env = false →
      processExitCode env .normalReturn = 0 ∧
      processExitCode env .keyboardInterrupt = 0 ∧
      (mainEpilogue .keyboardInterrupt).1 = [⟨INFO, "Interrupted by user."⟩] ∧
      processExitCode env (.fatalError m) = 1) := by
  constructor
  · intro h o
    simp [processExitCode, h]
  · intro h
    simp [processExitCode, h, exitCode, mainEpilogue]

/-- C4 witness: the amended exit-code table at concrete inputs. -/
theorem C4_exit_codes_witness :
    processExitCode (fun _ => none) LoopOutcome.normalReturn = 2 ∧
    processExitCode envEx LoopOutcome.normalReturn = 0 ∧
    processExitCode envEx (LoopOutcome.fatalError "boom") = 1 := by
  refine ⟨(C4_exit_codes (fun _ => none) "boom").1 (by decide) _,
    ((C4_exit_codes envEx "boom").2 (by decide)).1,
    ((C4_exit_codes envEx "boom").2 (by decide)).2.2.2⟩

/-- C8: the stop flag is initially false; the only program point that
changes it is the signal handler, which sets it to true; no point ever
resets it, so it is monotone along every execution, and a false-to-true
transition can only be a signal-handler write. -/
theorem C8_stop_flag_monotone :
    stop_requested_init = false ∧
    (∀ e, applyFlagEvent true e = true) ∧
    (∀ es, runFlag true es = true) ∧
    (∀ b e, applyFlagEvent b e = true →
      b = true ∨ ∃ s, e = FlagEvent.signalReceived s) ∧
    (∀ s b, (signal_handler s b).1 = true) := by
  refine ⟨rfl, ?_, ?_, ?_, fun _ _ => rfl⟩
  · intro e
    cases e <;> rfl
  · intro es
    induction es with
    | nil => rfl
    | cons e es ih =>
      have : applyFlagEvent true e = true := by cases e <;> rfl
      simp [runFlag, List.foldl_cons, this]
      simpa [runFlag] using ih
  · intro b e h
    cases e with
    | signalReceived s => exact Or.inr ⟨s, rfl⟩
    | loopTopRead => exact Or.inl h
    | sleepStepRead => exact Or.inl h

/-- C8 witness: a concrete trace (a read, a `SIGTERM`, a read) ends true
starting from true, and the false-to-true step is the signal write. -/
theorem C8_stop_flag_monotone_witness :
    runFlag true [FlagEvent.loopTopRead, FlagEvent.signalReceived 15,
      FlagEvent.sleepStepRead] = true ∧
    (false = true ∨ ∃ s, FlagEvent.signalReceived 15 = FlagEvent.signalReceived s) := by
  refine ⟨C8_stop_flag_monotone.2.2.1 _,
    C8_stop_flag_monotone.2.2.2.1 false (FlagEvent.signalReceived 15) rfl⟩

/-- C6: after each check, the remaining sleep equals
`max(0, interval - elapsed)`; the sleep is performed in increments of at
most one time unit with the stop flag re-read before each increment, so
that once the flag reads true no further increment starts: if the flag
becomes true `j` sampling points ahead, at most `j` increments remain. -/
theorem C6_sleep_phase (timeout : Int) (interval : ℚ) (flag : Nat → Bool)
    (it : IterData) (n : Nat) :
    remainingSleep interval it.elapsed = max 0 (interval - it.elapsed) ∧
    sleepCallsOf (iterationEvents timeout interval flag it n).1 =
      sleepLoop flag (remainingSleep interval it.elapsed) n ∧
    (∀ (t : ℚ) (m : Nat), flag m = true → sleepLoop flag t m = []) ∧
    (∀ (t : ℚ) (m : Nat), ∀ d ∈ sleepLoop flag t m, d ≤ 1) ∧
    (∀ (t : ℚ) (m j : Nat), flag (m + j) = true →
      (sleepLoop flag t m).length ≤ j) := by
  refine ⟨rfl, ?_, sleepLoop_nil_of_flag flag, sleepLoop_mem_le_one flag,
    sleepLoop_length_le flag⟩
  simp only [iterationEvents, sleepCallsOf_append, sleepCallsOf_conn,
    sleepCallsOf_log, sleepCallsOf_sleeps, List.nil_append, List.append_nil]

/-- C6 witness: with a flag that turns true at sampling point 2, a 4-unit
sleep performs at most 2 increments, and no increment starts at a true
read. -/
theorem C6_sleep_phase_witness :
    sleepLoop (fun m => decide (m ≥ 2)) 4 3 = [] ∧
    (sleepLoop (fun m => decide (m ≥ 2)) 4 0).length ≤ 2 := by
  refine ⟨(C6_sleep_phase 10 300 (fun m => decide (m ≥ 2))
      ⟨⟨false, false, false⟩, .returnsRow none, 0⟩ 0).2.2.1 4 3 (by decide),
    (C6_sleep_phase 10 300 (fun m => decide (m ≥ 2))
      ⟨⟨false, false, false⟩, .returnsRow none, 0⟩ 0).2.2.2.2 4 0 2
      (by decide)⟩

/-- C10: startup validation inspects only `DB_USER` and `DB_PASS`: with an
unset `DB_NAME` the process still enters the loop and passes a null
database name to every connection attempt, and an empty `LOG_FILE` behaves
exactly like an absent one (no file sink, no directory creation). -/
theorem C10_startup_inspects_only_creds (env env2 : Env) :
    (env "DB_USER" = env2 "DB_USER" → env "DB_PASS" = env2 "DB_PASS" →
      credsMissing env = credsMissing env2) ∧
    (credsMissing env = false → env "DB_NAME" = none →
      (∀ c, StartupEv.exitCall c ∉ startupTrace env) ∧
      StartupEv.loopEntered ∈ startupTrace env ∧
      (connParams env).dbname = none) ∧
    (env "LOG_FILE" = none ∨ env "LOG_FILE" = some "" →
      LOG_FILE env = "" ∧
      (∀ p, Sink.file p ∉ (setup_logging (LOG_FILE env)).map Handler.sink) ∧
      makedirsOnSetup (LOG_FILE env) = false) := by
  refine ⟨?_, ?_, ?_⟩
  · intro h1 h2
    simp [credsMissing, DB_USER, DB_PASS, h1, h2]
  · intro h hn
    refine ⟨?_, ?_, ?_⟩
    · intro c
      simp [startupTrace, h]
    · simp [startupTrace, h]
    · simp [connParams, DB_NAME, hn]
  · intro h
    have hl : LOG_FILE env = "" := by
      rcases h with h | h <;> simp [LOG_FILE, getenvD, h]
    refine ⟨hl, ?_, ?_⟩
    · intro p
      rw [hl]
      simp [setup_logging]
    · rw [hl]
      decide

/-- C10 witness: an environment with credentials only — `DB_NAME` and
`LOG_FILE` unset — proceeds, passes a null database name, and configures no
file sink. -/
theorem C10_startup_inspects_only_creds_witness :
    credsMissing envEx = credsMissing envEx2 ∧
    (connParams envEx).dbname = none ∧
    LOG_FILE envEx = "" ∧
    makedirsOnSetup (LOG_FILE envEx) = false := by
  refine ⟨(C10_startup_inspects_only_creds envEx envEx2).1 (by decide)
      (by decide),
    ((C10_startup_inspects_only_creds envEx envEx).2.1 (by decide)
      (by decide)).2.2,
    ((C10_startup_inspects_only_creds envEx envEx).2.2 (Or.inl (by decide))).1,
    ((C10_startup_inspects_only_creds envEx envEx).2.2
      (Or.inl (by decide))).2.2⟩

/-- C9 counterexample: the claim says every sink formats the record's own
severity label, but the stdout and stderr formatters hard-code the literals
`[INFO]` and `[ERROR]` (lines 31 and 37); a WARNING record rendered by the
stdout formatter carries the label `INFO` and not its own level. -/
theorem C9_logging_sinks_counterexample :
    ¬ (∀ h ∈ setup_logging "", FmtTok.levelname ∈ h.fmt) ∧
    render stdoutFmt ⟨"t", "WARNING", "m"⟩ = "t [INFO] m" := by
  constructor
  · decide
  · decide

/-- C9 (amended): logging is configured with three independent sinks —
stdout at minimum severity INFO, stderr at minimum severity WARNING, and,
exactly when a log file path is configured, an append-mode file sink at
minimum severity DEBUG with parent directories created as needed.  Every
sink formats a timestamp and the message; the file sink also formats the
record's own severity label, while the stdout and stderr sinks carry the
fixed literal labels `[INFO]` and `[ERROR]` respectively. -/
theorem C9_logging_sinks (logFile : String) :
    ((setup_logging logFile).map Handler.sink =
      if logFile ≠ "" then [Sink.stdout, Sink.stderr, Sink.file logFile]
      else [Sink.stdout, Sink.stderr]) ∧
    (∀ h ∈ setup_logging logFile,
      (h.sink = Sink.stdout → h.level = INFO ∧ h.fmt = stdoutFmt ∧ h.mode = none) ∧
      (h.sink = Sink.stderr → h.level = WARNING ∧ h.fmt = stderrFmt ∧ h.mode = none) ∧
      (h.sink = Sink.file logFile →
        h.level = DEBUG ∧ h.fmt = fileFmt ∧ h.mode = some "a")) ∧
    (makedirsOnSetup logFile = true ↔ logFile ≠ "") ∧
    (∀ h ∈ setup_logging logFile,
      FmtTok.asctime ∈ h.fmt ∧ FmtTok.message ∈ h.fmt) ∧
    FmtTok.levelname ∈ fileFmt ∧
    (FmtTok.lit " [INFO] " ∈ stdoutFmt ∧ FmtTok.levelname ∉ stdoutFmt) ∧
    (FmtTok.lit " [ERROR] " ∈ stderrFmt ∧ FmtTok.levelname ∉ stderrFmt) := by
  by_cases hl : logFile = ""
  · subst hl
    refine ⟨by decide, ?_, by decide, ?_, by decide, by decide, by decide⟩
    · intro h hm
      fin_cases hm <;> refine ⟨?_, ?_, ?_⟩ <;> intro hs <;>
        first | (exact ⟨rfl, rfl, rfl⟩) | (exact absurd hs (by decide))
    · intro h hm
      fin_cases hm <;> exact ⟨by decide, by decide⟩
  · refine ⟨by simp [setup_logging, hl], ?_, by simp [makedirsOnSetup, hl],
      ?_, by decide, by decide, by decide⟩
    · intro h hm
      simp [setup_logging, hl] at hm
      rcases hm with hm | hm | hm <;> subst hm <;> refine ⟨?_, ?_, ?_⟩ <;>
        intro hs <;> first
          | (exact ⟨rfl, rfl, rfl⟩)
          | (exact absurd hs (by simp))
    · intro h hm
      simp [setup_logging, hl] at hm
      rcases hm with hm | hm | hm <;> subst hm <;>
        exact ⟨by simp [stdoutFmt, stderrFmt, fileFmt],
          by simp [stdoutFmt, stderrFmt, fileFmt]⟩

/-- C9 witness: the amended sink table at a configured and an absent log
file path. -/
theorem C9_logging_sinks_witness :
    ((setup_logging "p.log").map Handler.sink =
      [Sink.stdout, Sink.stderr, Sink.file "p.log"]) ∧
    (makedirsOnSetup "" = true ↔ ("" : String) ≠ "") ∧
    (⟨Sink.file "p.log", DEBUG, fileFmt, some "a"⟩ : Handler).level = DEBUG := by
  refine ⟨?_, (C9_logging_sinks "").2.2.1, ?_⟩
  · have := (C9_logging_sinks "p.log").1
    simpa using this
  · have := ((C9_logging_sinks "p.log").2.1
      ⟨Sink.file "p.log", DEBUG, fileFmt, some "a"⟩ (by decide)).2.2 rfl
    exact this.1

end Pinger
